import Mathlib

/-!
Verification of the sql2any type-driven conversion engine.

The definitions below are a shallow embedding of the Rust sources:
  src/conv/mod.rs   (FieldKind, get_common_type, the per-backend From impls),
  src/conv/gfm.rs   (text-table renderer and writer),
  src/conv/json.rs  (structured-document renderer and writer),
  src/conv/xlsx.rs  (spreadsheet renderer and writer).

Rust panics (todo!(), unwrap on None, failed row decodes) are modelled as
Except errors; writing to a file or worksheet is modelled by returning the
written content (a list of lines, a string, a list of worksheet operations).
-/

set_option maxHeartbeats 1000000
set_option maxRecDepth 8192

namespace Sql2any

/-- Backend identity: the two database drivers dispatched on in src/main.rs
("postgres" and "mysql" url schemes). -/
inductive Backend
  | postgres
  | mysql
deriving DecidableEq

/-- FieldKind from src/conv/mod.rs: the canonical, backend-independent
classification of a column's value type. UNKNOWN carries the (lowercased)
type name that was not recognised. -/
inductive FieldKind
  | INT8
  | INT16
  | INT32
  | INT64
  | UINT8
  | UINT16
  | UINT32
  | UINT64
  | FLOAT32
  | FLOAT64
  | STR
  | BOOL
  | DECIMAL
  | DATE
  | TIME
  | DATETIME
  | DATETIMETZ
  | JSON
  | UNKNOWN (typ : String)
deriving DecidableEq

/-- ASCII lowercase of one character, as applied by `to_lowercase()` to the
ASCII type names the drivers report (the embedding does not model Unicode
lowercasing beyond ASCII, which no SQL type name uses). -/
def asciiLowerChar (c : Char) : Char :=
  if 'A' ≤ c ∧ c ≤ 'Z' then Char.ofNat (c.toNat + 32) else c

/-- Embedding of `name.to_lowercase()` from the two From impls in
src/conv/mod.rs, restricted to ASCII. -/
def toLowercase (s : String) : String :=
  String.mk (s.data.map asciiLowerChar)

/-- get_common_type from src/conv/mod.rs lines 34-69: the shared lookup
table mapping known type-name spellings to FieldKind; anything else yields
UNKNOWN carrying the name. The Rust match on string literals is rendered
as the equivalent chain of equality tests. -/
def get_common_type (name : String) : FieldKind :=
  if name = "string" ∨ name = "varchar" ∨ name = "tinytext" ∨ name = "text" ∨
     name = "mediumtext" ∨ name = "longtext" ∨ name = "char" ∨ name = "bpchar" then .STR
  else if name = "tinyint" then .INT8
  else if name = "int2" ∨ name = "smallint" then .INT16
  else if name = "int4" ∨ name = "int" ∨ name = "mediumint" then .INT32
  else if name = "int8" ∨ name = "bigint" then .INT64
  else if name = "tinyint unsigned" then .UINT8
  else if name = "smallint unsigned" then .UINT16
  else if name = "int unsigned" ∨ name = "mediumint unsigned" then .UINT32
  else if name = "bigint unsigned" then .UINT64
  else if name = "float4" ∨ name = "float" then .FLOAT32
  else if name = "float8" ∨ name = "double" then .FLOAT64
  else if name = "decimal" ∨ name = "numeric" then .DECIMAL
  else if name = "json" ∨ name = "jsonb" then .JSON
  else if name = "bool" ∨ name = "boolean" then .BOOL
  else if name = "date" then .DATE
  else if name = "time" then .TIME
  else if name = "datetime" then .DATETIME
  else if name = "timestamptz" then .DATETIMETZ
  else .UNKNOWN name

/-- The spellings the shared table of get_common_type recognises. -/
def knownCommonTypeNames : List String :=
  ["string", "varchar", "tinytext", "text", "mediumtext", "longtext", "char", "bpchar",
   "tinyint", "int2", "smallint", "int4", "int", "mediumint", "int8", "bigint",
   "tinyint unsigned", "smallint unsigned", "int unsigned", "mediumint unsigned",
   "bigint unsigned", "float4", "float", "float8", "double", "decimal", "numeric",
   "json", "jsonb", "bool", "boolean", "date", "time", "datetime", "timestamptz"]

/-- Backend column metadata as the drivers report it: a column name and a
type name (sqlx's Column + TypeInfo, the inputs of the two From impls). -/
structure SqlColumn where
  colName : String
  typeName : String
deriving DecidableEq

/-- Field from src/conv/mod.rs: a classified column. -/
structure Field where
  name : String
  kind : FieldKind
deriving DecidableEq

/-- Classification of a Postgres column type name: the kind part of
`impl From<&PgColumn> for Field` (src/conv/mod.rs lines 129-137). -/
def classifyPg (typeName : String) : FieldKind :=
  let n := toLowercase typeName
  if n = "timestamp" then .DATETIME else get_common_type n

/-- Classification of a MySQL column type name: the kind part of
`impl From<&MySqlColumn> for Field` (src/conv/mod.rs lines 139-147). -/
def classifyMySql (typeName : String) : FieldKind :=
  let n := toLowercase typeName
  if n = "timestamp" then .DATETIMETZ else get_common_type n

/-- The classifier contract of the spec: classify(backendTypeName, backendKind). -/
def classify : Backend → String → FieldKind
  | .postgres, n => classifyPg n
  | .mysql, n => classifyMySql n

/-- Embedding of `impl From<&PgColumn> for Field`. -/
def fieldFromPg (col : SqlColumn) : Field :=
  ⟨col.colName, classifyPg col.typeName⟩

/-- Embedding of `impl From<&MySqlColumn> for Field`. -/
def fieldFromMySql (col : SqlColumn) : Field :=
  ⟨col.colName, classifyMySql col.typeName⟩

/-- Calendar date (chrono NaiveDate), with its "%Y-%m-%d" Display rendering. -/
structure DateV where
  year : Nat
  month : Nat
  day : Nat
deriving DecidableEq

/-- Time of day (chrono NaiveTime, whole seconds), "%H:%M:%S" Display. -/
structure TimeV where
  hour : Nat
  minute : Nat
  second : Nat
deriving DecidableEq

/-- Naive datetime (chrono NaiveDateTime): a date plus a time. -/
structure DateTimeV where
  date : DateV
  time : TimeV
deriving DecidableEq

/-- Timezone-aware datetime (chrono DateTime of the Local zone), stored as
its local wall-clock value plus the UTC offset in minutes; naive_local()
is then the stored local value. -/
structure TzDateTimeV where
  localDt : DateTimeV
  offMin : Int
deriving DecidableEq

/-- Left-pad the decimal rendering of a natural number with zeros to the
given width, as the chrono Display implementations do for date/time parts. -/
def padNum (w : Nat) (n : Nat) : String :=
  let s := Nat.repr n
  String.mk (List.replicate (w - s.length) '0') ++ s

/-- chrono NaiveDate Display: "YYYY-MM-DD". -/
def DateV.toDisplay (d : DateV) : String :=
  padNum 4 d.year ++ "-" ++ padNum 2 d.month ++ "-" ++ padNum 2 d.day

/-- chrono NaiveTime Display: "HH:MM:SS". -/
def TimeV.toDisplay (t : TimeV) : String :=
  padNum 2 t.hour ++ ":" ++ padNum 2 t.minute ++ ":" ++ padNum 2 t.second

/-- chrono NaiveDateTime Display: date, space, time. -/
def DateTimeV.toDisplay (dt : DateTimeV) : String :=
  dt.date.toDisplay ++ " " ++ dt.time.toDisplay

/-- chrono UTC-offset Display: "+HH:MM" or "-HH:MM". -/
def offDisplay (off : Int) : String :=
  (if off < 0 then "-" else "+") ++ padNum 2 (off.natAbs / 60) ++ ":" ++ padNum 2 (off.natAbs % 60)

/-- chrono DateTime of Local Display: local wall-clock value plus offset. -/
def TzDateTimeV.toDisplay (tz : TzDateTimeV) : String :=
  tz.localDt.toDisplay ++ " " ++ offDisplay tz.offMin

/-- Modelled dependency behaviour: chrono NaiveDate::default() is the Unix
epoch date 1970-01-01 (used by gfm_write_date's unwrap_or_default). -/
def chronoDefaultDate : DateV := ⟨1970, 1, 1⟩

/-- Modelled dependency behaviour: chrono NaiveTime::default() is midnight. -/
def chronoDefaultTime : TimeV := ⟨0, 0, 0⟩

/-- Modelled dependency behaviour: chrono NaiveDateTime::default() is the
Unix epoch instant. -/
def chronoDefaultDateTime : DateTimeV := ⟨chronoDefaultDate, chronoDefaultTime⟩

/-- rust_decimal Decimal: an integer mantissa scaled by 10 ^ scale.
The f64Repr field carries the result of the dependency's to_f64
(num_traits ToPrimitive) conversion as data, since that conversion lives
outside this repository: some q when the value is representable as a
floating-point number q, none when it is not. -/
structure DecimalV where
  mantissa : Int
  scale : Nat
  f64Repr : Option ℚ
deriving DecidableEq

/-- rust_decimal Display: the mantissa with the decimal point placed
scale digits from the right. -/
def DecimalV.toDisplay (d : DecimalV) : String :=
  let sign := if d.mantissa < 0 then "-" else ""
  let m := d.mantissa.natAbs
  if d.scale = 0 then sign ++ Nat.repr m
  else sign ++ Nat.repr (m / 10 ^ d.scale) ++ "." ++ padNum d.scale (m % 10 ^ d.scale)

/-- Drop trailing '0' characters (used by the modelled float display). -/
def trimZeros (s : String) : String :=
  String.mk ((s.data.reverse.dropWhile (fun c => c = '0')).reverse)

/-- Modelled from the spec: the decimal rendering of floating-point cell
values (Rust's f32/f64 Display and the serde_json number serializer, an
external dependency detail that no claim's truth depends on). The embedding
carries floats as rationals and renders up to six fractional digits. -/
def floatDisplay (q : ℚ) : String :=
  let sign := if q < 0 then "-" else ""
  let a : ℚ := if q < 0 then -q else q
  let scaled : Nat := (a * 1000000).floor.toNat
  let ip := scaled / 1000000
  let fr := scaled % 1000000
  if fr = 0 then sign ++ Nat.repr ip
  else sign ++ Nat.repr ip ++ "." ++ trimZeros (padNum 6 fr)

/-- serde_json Value: the JSON value lattice. Numbers are split into the
integer and floating cases the code produces (floats modelled as ℚ). -/
inductive JValue
  | null
  | bool (b : Bool)
  | numI (n : Int)
  | numF (q : ℚ)
  | str (s : String)
  | arr (xs : List JValue)
  | obj (kvs : List (String × JValue))

/-- Render one string character the way the serde_json string serializer
escapes it. -/
def escapeChar (c : Char) : List Char :=
  if c = '"' then ['\\', '"']
  else if c = '\\' then ['\\', '\\']
  else if c = '\n' then ['\\', 'n']
  else if c = '\t' then ['\\', 't']
  else if c = '\r' then ['\\', 'r']
  else if c = Char.ofNat 8 then ['\\', 'b']
  else if c = Char.ofNat 12 then ['\\', 'f']
  else if c.toNat < 32 then
    let hex := fun (n : Nat) => if n < 10 then Char.ofNat (48 + n) else Char.ofNat (87 + n)
    ['\\', 'u', '0', '0', hex (c.toNat / 16), hex (c.toNat % 16)]
  else [c]

/-- serde_json string serialization: quoted and escaped. -/
def serializeStr (s : String) : String :=
  "\"" ++ String.mk (s.data.flatMap escapeChar) ++ "\""

/-- Vec join: interleave a separator between rendered pieces. -/
def strJoin (sep : String) : List String → String
  | [] => ""
  | [s] => s
  | s :: rest => s ++ sep ++ strJoin sep rest

mutual

/-- serde_json compact serialization of a Value (what Value's Display and
to_writer emit). -/
def serializeVal : JValue → String
  | .null => "null"
  | .bool b => if b then "true" else "false"
  | .numI n => Int.repr n
  | .numF q => floatDisplay q
  | .str s => serializeStr s
  | .arr xs => "[" ++ serializeElems xs ++ "]"
  | .obj kvs => "\x7b" ++ serializeEntries kvs ++ "\x7d"

/-- Comma-separated compact serialization of the elements of a JSON array. -/
def serializeElems : List JValue → String
  | [] => ""
  | [x] => serializeVal x
  | x :: xs => serializeVal x ++ "," ++ serializeElems xs

/-- Comma-separated compact serialization of object entries in iteration
order. -/
def serializeEntries : List (String × JValue) → String
  | [] => ""
  | [(k, v)] => serializeStr k ++ ":" ++ serializeVal v
  | (k, v) :: xs => serializeStr k ++ ":" ++ serializeVal v ++ "," ++ serializeEntries xs

end

/-- serde_json compact serialization of a Map, given its entries in
iteration order (what to_writer emits for one row's object). -/
def serializeObj (kvs : List (String × JValue)) : String :=
  "\x7b" ++ serializeEntries kvs ++ "\x7d"

/-- Raw column value as decoded from a driver row. The temporal variants
carry Option, matching the Option-typed decodes the renderers request;
the JSON variant carries a serde_json Value. -/
inductive RawValue
  | vInt8 (v : Int)
  | vInt16 (v : Int)
  | vInt32 (v : Int)
  | vInt64 (v : Int)
  | vFloat32 (q : ℚ)
  | vFloat64 (q : ℚ)
  | vStr (s : String)
  | vBool (b : Bool)
  | vDecimal (d : DecimalV)
  | vDate (o : Option DateV)
  | vTime (o : Option TimeV)
  | vDateTime (o : Option DateTimeV)
  | vDateTimeTz (o : Option TzDateTimeV)
  | vJson (j : JValue)

/-- One driver row: the column metadata sqlx attaches to every row plus the
raw values, indexable by position. -/
structure DbRow where
  cols : List SqlColumn
  vals : List RawValue

/-- The ways a renderer aborts, each a Rust panic or fatal condition:
panicTodo models todo!() at renderer selection, panicIndex an
out-of-bounds row access, panicDecode a row.get type mismatch, and
panicUnwrapNone .unwrap() on a None. -/
inductive RenderErr
  | panicTodo
  | panicIndex
  | panicDecode
  | panicUnwrapNone
deriving DecidableEq

/-- row.get::(i8) (panics on a missing column or a mismatched type). -/
def getI8 (c : Nat) (rw : DbRow) : Except RenderErr Int :=
  match rw.vals[c]? with
  | some (.vInt8 v) => .ok v
  | some _ => .error .panicDecode
  | none => .error .panicIndex

/-- row.get::(i16). -/
def getI16 (c : Nat) (rw : DbRow) : Except RenderErr Int :=
  match rw.vals[c]? with
  | some (.vInt16 v) => .ok v
  | some _ => .error .panicDecode
  | none => .error .panicIndex

/-- row.get::(i32). -/
def getI32 (c : Nat) (rw : DbRow) : Except RenderErr Int :=
  match rw.vals[c]? with
  | some (.vInt32 v) => .ok v
  | some _ => .error .panicDecode
  | none => .error .panicIndex

/-- row.get::(i64). -/
def getI64 (c : Nat) (rw : DbRow) : Except RenderErr Int :=
  match rw.vals[c]? with
  | some (.vInt64 v) => .ok v
  | some _ => .error .panicDecode
  | none => .error .panicIndex

/-- row.get::(f32). -/
def getF32 (c : Nat) (rw : DbRow) : Except RenderErr ℚ :=
  match rw.vals[c]? with
  | some (.vFloat32 q) => .ok q
  | some _ => .error .panicDecode
  | none => .error .panicIndex

/-- row.get::(f64). -/
def getF64 (c : Nat) (rw : DbRow) : Except RenderErr ℚ :=
  match rw.vals[c]? with
  | some (.vFloat64 q) => .ok q
  | some _ => .error .panicDecode
  | none => .error .panicIndex

/-- row.get::(&str). -/
def getStr (c : Nat) (rw : DbRow) : Except RenderErr String :=
  match rw.vals[c]? with
  | some (.vStr s) => .ok s
  | some _ => .error .panicDecode
  | none => .error .panicIndex

/-- row.get::(bool). -/
def getBool (c : Nat) (rw : DbRow) : Except RenderErr Bool :=
  match rw.vals[c]? with
  | some (.vBool b) => .ok b
  | some _ => .error .panicDecode
  | none => .error .panicIndex

/-- row.get::(Decimal). -/
def getDecimal (c : Nat) (rw : DbRow) : Except RenderErr DecimalV :=
  match rw.vals[c]? with
  | some (.vDecimal d) => .ok d
  | some _ => .error .panicDecode
  | none => .error .panicIndex

/-- row.get::(Option NaiveDate). -/
def getOptDate (c : Nat) (rw : DbRow) : Except RenderErr (Option DateV) :=
  match rw.vals[c]? with
  | some (.vDate o) => .ok o
  | some _ => .error .panicDecode
  | none => .error .panicIndex

/-- row.get::(Option NaiveTime). -/
def getOptTime (c : Nat) (rw : DbRow) : Except RenderErr (Option TimeV) :=
  match rw.vals[c]? with
  | some (.vTime o) => .ok o
  | some _ => .error .panicDecode
  | none => .error .panicIndex

/-- row.get::(Option NaiveDateTime). -/
def getOptDateTime (c : Nat) (rw : DbRow) : Except RenderErr (Option DateTimeV) :=
  match rw.vals[c]? with
  | some (.vDateTime o) => .ok o
  | some _ => .error .panicDecode
  | none => .error .panicIndex

/-- row.get::(Option (DateTime Local)). -/
def getOptTz (c : Nat) (rw : DbRow) : Except RenderErr (Option TzDateTimeV) :=
  match rw.vals[c]? with
  | some (.vDateTimeTz o) => .ok o
  | some _ => .error .panicDecode
  | none => .error .panicIndex

/-- row.get::(JsonValue). -/
def getJson (c : Nat) (rw : DbRow) : Except RenderErr JValue :=
  match rw.vals[c]? with
  | some (.vJson j) => .ok j
  | some _ => .error .panicDecode
  | none => .error .panicIndex

/-- GfmConvFn from src/conv/gfm.rs: a text-table cell renderer. -/
def GfmConvFn := Nat → DbRow → Except RenderErr String

/-- JsonConvFn from src/conv/json.rs: a structured-document cell renderer. -/
def JsonConvFn := Nat → DbRow → Except RenderErr JValue

/-- GFM::convert from src/conv/gfm.rs lines 43-87. The gfm_write macro is
get-then-to_string; gfm_write_date is get-unwrap_or_default-to_string.
DateTime of Local has an environment-dependent default (the Unix epoch in
the local zone), so the embedding takes that default as the parameter ld. -/
def gfmConvert (ld : TzDateTimeV) (field : Field) : Except RenderErr GfmConvFn :=
  match field.kind with
  | .INT8 => .ok (fun c rw => (getI8 c rw).map Int.repr)
  | .INT16 => .ok (fun c rw => (getI16 c rw).map Int.repr)
  | .INT32 => .ok (fun c rw => (getI32 c rw).map Int.repr)
  | .INT64 => .ok (fun c rw => (getI64 c rw).map Int.repr)
  | .UINT8 => .error .panicTodo
  | .UINT16 => .error .panicTodo
  | .UINT32 => .error .panicTodo
  | .UINT64 => .error .panicTodo
  | .FLOAT32 => .ok (fun c rw => (getF32 c rw).map floatDisplay)
  | .FLOAT64 => .ok (fun c rw => (getF64 c rw).map floatDisplay)
  | .STR => .ok (fun c rw => getStr c rw)
  | .BOOL => .ok (fun c rw => (getBool c rw).map (fun b => if b then "true" else "false"))
  | .DECIMAL => .ok (fun c rw => (getDecimal c rw).map DecimalV.toDisplay)
  | .DATE => .ok (fun c rw => (getOptDate c rw).map (fun o => (o.getD chronoDefaultDate).toDisplay))
  | .TIME => .ok (fun c rw => (getOptTime c rw).map (fun o => (o.getD chronoDefaultTime).toDisplay))
  | .DATETIME => .ok (fun c rw =>
      (getOptDateTime c rw).map (fun o => (o.getD chronoDefaultDateTime).toDisplay))
  | .DATETIMETZ => .ok (fun c rw => (getOptTz c rw).map (fun o => (o.getD ld).toDisplay))
  | .JSON => .ok (fun c rw => (getJson c rw).map serializeVal)
  | .UNKNOWN _ => .error .panicTodo

/-- JSON::convert from src/conv/json.rs lines 39-83. The json_write macro
is get-then-Into of Value; json_write_date maps to_string over the Option
(None becoming JSON null); DECIMAL is get-to_f64-unwrap-Into. -/
def jsonConvert (field : Field) : Except RenderErr JsonConvFn :=
  match field.kind with
  | .INT8 => .ok (fun c rw => (getI8 c rw).map JValue.numI)
  | .INT16 => .ok (fun c rw => (getI16 c rw).map JValue.numI)
  | .INT32 => .ok (fun c rw => (getI32 c rw).map JValue.numI)
  | .INT64 => .ok (fun c rw => (getI64 c rw).map JValue.numI)
  | .UINT8 => .error .panicTodo
  | .UINT16 => .error .panicTodo
  | .UINT32 => .error .panicTodo
  | .UINT64 => .error .panicTodo
  | .FLOAT32 => .ok (fun c rw => (getF32 c rw).map JValue.numF)
  | .FLOAT64 => .ok (fun c rw => (getF64 c rw).map JValue.numF)
  | .STR => .ok (fun c rw => (getStr c rw).map JValue.str)
  | .BOOL => .ok (fun c rw => (getBool c rw).map JValue.bool)
  | .DECIMAL => .ok (fun c rw => do
      let d ← getDecimal c rw
      match d.f64Repr with
      | some q => .ok (JValue.numF q)
      | none => .error .panicUnwrapNone)
  | .DATE => .ok (fun c rw => (getOptDate c rw).map (fun o =>
      match o with
      | some d => JValue.str d.toDisplay
      | none => JValue.null))
  | .TIME => .ok (fun c rw => (getOptTime c rw).map (fun o =>
      match o with
      | some t => JValue.str t.toDisplay
      | none => JValue.null))
  | .DATETIME => .ok (fun c rw => (getOptDateTime c rw).map (fun o =>
      match o with
      | some dt => JValue.str dt.toDisplay
      | none => JValue.null))
  | .DATETIMETZ => .ok (fun c rw => (getOptTz c rw).map (fun o =>
      match o with
      | some tz => JValue.str tz.toDisplay
      | none => JValue.null))
  | .JSON => .ok (fun c rw => getJson c rw)
  | .UNKNOWN _ => .error .panicTodo

/-- XF from src/conv/xlsx.rs: the spreadsheet format palette keys. -/
inductive XF
  | Bold
  | Int
  | Eur
  | Date
  | Time
  | Stamp
deriving DecidableEq

/-- One spreadsheet display format: bold flag plus number-format pattern. -/
structure XlsxFormat where
  bold : Bool
  numFormat : Option String
deriving DecidableEq

/-- The enum_map built in XLSX::write lines 144-151: Bold is set_bold, the
rest are the number-format patterns. -/
def xfMap : XF → XlsxFormat
  | .Bold => ⟨true, none⟩
  | .Int => ⟨false, some "#,##0"⟩
  | .Eur => ⟨false, some "#,##0.00"⟩
  | .Date => ⟨false, some "dd/mm/yyyy"⟩
  | .Time => ⟨false, some "hh:mm"⟩
  | .Stamp => ⟨false, some "dd/mm/yyyy hh:mm:ss"⟩

/-- The typed payload of one worksheet cell write. -/
inductive CellContent
  | cInt (v : Int)
  | cFloat (q : ℚ)
  | cStr (s : String)
  | cBool (b : Bool)
  | cDate (d : DateV)
  | cTime (t : TimeV)
  | cDateTime (dt : DateTimeV)
deriving DecidableEq

/-- One observable worksheet operation performed by XLSX::write. -/
inductive WsOp
  | write (r c : Nat) (content : CellContent)
  | writeFmt (r c : Nat) (content : CellContent) (fmt : XF)
  | freeze (r c : Nat)
  | autofilter (r1 c1 r2 c2 : Nat)
  | autofit
deriving DecidableEq

/-- XlsxConvFn from src/conv/xlsx.rs: a spreadsheet cell renderer, taking
the destination row and column and returning the worksheet writes it
performs (none for an omitted null temporal cell). -/
def XlsxConvFn := Nat → Nat → DbRow → Except RenderErr (List WsOp)

/-- XLSX::convert from src/conv/xlsx.rs lines 60-118: the xlsx_write macro
writes with the given format; the Option temporal variants write only when
the value is Some; INT64 is cast to f64; DECIMAL is to_f64-unwrap;
DATETIMETZ writes its naive_local value; JSON writes its to_string. -/
def xlsxConvert (field : Field) : Except RenderErr XlsxConvFn :=
  match field.kind with
  | .INT8 => .ok (fun r c rw => (getI8 c rw).map (fun v => [.writeFmt r c (.cInt v) .Int]))
  | .INT16 => .ok (fun r c rw => (getI16 c rw).map (fun v => [.writeFmt r c (.cInt v) .Int]))
  | .INT32 => .ok (fun r c rw => (getI32 c rw).map (fun v => [.writeFmt r c (.cInt v) .Int]))
  | .INT64 => .ok (fun r c rw =>
      (getI64 c rw).map (fun v => [.writeFmt r c (.cFloat (v : ℚ)) .Int]))
  | .UINT8 => .error .panicTodo
  | .UINT16 => .error .panicTodo
  | .UINT32 => .error .panicTodo
  | .UINT64 => .error .panicTodo
  | .FLOAT32 => .ok (fun r c rw => (getF32 c rw).map (fun q => [.writeFmt r c (.cFloat q) .Eur]))
  | .FLOAT64 => .ok (fun r c rw => (getF64 c rw).map (fun q => [.writeFmt r c (.cFloat q) .Eur]))
  | .STR => .ok (fun r c rw => (getStr c rw).map (fun s => [.write r c (.cStr s)]))
  | .BOOL => .ok (fun r c rw => (getBool c rw).map (fun b => [.write r c (.cBool b)]))
  | .DECIMAL => .ok (fun r c rw => do
      let d ← getDecimal c rw
      match d.f64Repr with
      | some q => .ok [.writeFmt r c (.cFloat q) .Eur]
      | none => .error .panicUnwrapNone)
  | .DATE => .ok (fun r c rw => (getOptDate c rw).map (fun o =>
      match o with
      | some v => [.writeFmt r c (.cDate v) .Date]
      | none => []))
  | .TIME => .ok (fun r c rw => (getOptTime c rw).map (fun o =>
      match o with
      | some v => [.writeFmt r c (.cTime v) .Time]
      | none => []))
  | .DATETIME => .ok (fun r c rw => (getOptDateTime c rw).map (fun o =>
      match o with
      | some v => [.writeFmt r c (.cDateTime v) .Stamp]
      | none => []))
  | .DATETIMETZ => .ok (fun r c rw => (getOptTz c rw).map (fun o =>
      match o with
      | some v => [.writeFmt r c (.cDateTime v.localDt) .Stamp]
      | none => []))
  | .JSON => .ok (fun r c rw => (getJson c rw).map (fun j => [.write r c (.cStr (serializeVal j))]))
  | .UNKNOWN _ => .error .panicTodo

/-- Select a text-table renderer for a field and apply it to one cell. -/
def gfmRenderCell (ld : TzDateTimeV) (field : Field) (c : Nat) (rw : DbRow) :
    Except RenderErr String := do
  let conv ← gfmConvert ld field
  conv c rw

/-- Select a structured-document renderer for a field and apply it to one cell. -/
def jsonRenderCell (field : Field) (c : Nat) (rw : DbRow) : Except RenderErr JValue := do
  let conv ← jsonConvert field
  conv c rw

/-- Select a spreadsheet renderer for a field and apply it to one cell. -/
def xlsxRenderCell (field : Field) (r c : Nat) (rw : DbRow) : Except RenderErr (List WsOp) := do
  let conv ← xlsxConvert field
  conv r c rw

/-- Column schema derivation shared by the three writers: each takes the
columns of result[0] (when the result is non-empty) through the backend's
Into Field conversion, here the parameter f. -/
def resultColumns (f : SqlColumn → Field) : List DbRow → List Field
  | [] => []
  | r0 :: _ => r0.cols.map f

/-- One step of the column-width fold in GFM::write lines 127-134: the
accumulator entries zipped with the row are raised to the max of the held
width and the cell's length; accumulator entries beyond the row are kept. -/
def updateLens : List Nat → List String → List Nat
  | [], _ => []
  | acc, [] => acc
  | l :: acc, s :: rw => max s.length l :: updateLens acc rw

/-- str::repeat of "-": the separator cell of GFM::write line 139. -/
def dashRepeat (n : Nat) : String :=
  String.mk (List.replicate n '-')

/-- The Rust format spec fld:<len: left-align fld, padding with spaces on
the right up to width len (never truncating). -/
def padCell (s : String) (len : Nat) : String :=
  s ++ String.mk (List.replicate (len - s.length) ' ')

/-- One output line of GFM::write lines 141-149: every cell is padded to
its column width, wrapped in single spaces, joined with pipes and fenced
by pipes. -/
def gfmLine (lens : List Nat) (row : List String) : String :=
  "|" ++ strJoin "|" ((row.zip lens).map (fun p => " " ++ padCell p.1 p.2 ++ " ")) ++ "|"

/-- The rendered 2-D body of GFM::write lines 117-126: for every row of the
result, every column's renderer applied at its index. -/
def gfmBody (f : SqlColumn → Field) (ld : TzDateTimeV) (result : List DbRow) :
    Except RenderErr (List (List String)) := do
  let convs ← (resultColumns f result).mapM (gfmConvert ld)
  result.mapM (fun rw => (convs.enum).mapM (fun p => p.2 p.1 rw))

/-- GFM::write from src/conv/gfm.rs lines 89-153, with the written file
modelled as the list of emitted lines: nothing is written for an empty
result; otherwise the header is the column names, the widths are the fold
of updateLens over the rendered body starting from the header lengths, and
the emitted rows are header, separator (dashes at each width), then body,
each through gfmLine. -/
def gfmWrite (f : SqlColumn → Field) (ld : TzDateTimeV) (result : List DbRow) :
    Except RenderErr (List String) :=
  if result.isEmpty then .ok []
  else do
    let head := (resultColumns f result).map Field.name
    let body ← gfmBody f ld result
    let lens := body.foldl updateLens (head.map String.length)
    .ok ((head :: lens.map dashRepeat :: body).map (gfmLine lens))

/-- Modelled from the spec: serde_json::Map insertion. The map's key order
is a dependency feature chosen in Cargo.toml, which is not under src/; the
spec states object keys appear in column order, so the map is modelled as
insertion-ordered, an existing key being overwritten in place (the
behaviour both candidate map backings share). -/
def mapInsert (m : List (String × JValue)) (k : String) (v : JValue) :
    List (String × JValue) :=
  if m.any (fun p => p.1 = k) then m.map (fun p => if p.1 = k then (k, v) else p)
  else m ++ [(k, v)]

/-- Modelled from the spec: serde_json Map::from_iter, inserting each pair
in iteration order (see mapInsert). -/
def mapFromIter (l : List (String × JValue)) : List (String × JValue) :=
  l.foldl (fun m p => mapInsert m p.1 p.2) []

/-- The key-value sequence JSON::write feeds Map::from_iter for one row
(line 115-119): column name paired with the rendered cell, in column
order. -/
def jsonRowKVs (columns : List Field) (convs : List JsonConvFn) (rw : DbRow) :
    Except RenderErr (List (String × JValue)) :=
  ((columns.zip convs).enum).mapM (fun p => (p.2.2 p.1 rw).map (fun v => (p.2.1.name, v)))

/-- The per-row key-value sequences of the whole result, before
Map::from_iter: renderer selection once per column, then one kv list per
row in source order. -/
def jsonRawRows (f : SqlColumn → Field) (result : List DbRow) :
    Except RenderErr (List (List (String × JValue))) := do
  let convs ← (resultColumns f result).mapM jsonConvert
  result.mapM (jsonRowKVs (resultColumns f result) convs)

/-- The maps JSON::write serializes, one per row in source order. -/
def jsonObjects (f : SqlColumn → Field) (result : List DbRow) :
    Except RenderErr (List (List (String × JValue))) := do
  let convs ← (resultColumns f result).mapM jsonConvert
  result.mapM (fun rw => (jsonRowKVs (resultColumns f result) convs rw).map mapFromIter)

/-- JSON::write from src/conv/json.rs lines 85-127, the written file
modelled as the accumulated string: writeln "[", then for every row the
serialized map followed by writeln ",", then writeln "]". -/
def jsonWrite (f : SqlColumn → Field) (result : List DbRow) : Except RenderErr String :=
  if result.isEmpty then .ok ("[" ++ "\n" ++ "]" ++ "\n")
  else do
    let convs ← (resultColumns f result).mapM jsonConvert
    let body ← result.foldlM (fun acc rw =>
        (jsonRowKVs (resultColumns f result) convs rw).map (fun kvs =>
          acc ++ serializeObj (mapFromIter kvs) ++ "," ++ "\n")) ("[" ++ "\n")
    .ok (body ++ "]" ++ "\n")

/-- The data-cell writes of XLSX::write lines 166-170: rows in order, each
column's renderer invoked at worksheet row r+1 and its column index. -/
def xlsxDataOps (convs : List XlsxConvFn) (result : List DbRow) :
    Except RenderErr (List WsOp) := do
  let rowsOps ← result.enum.mapM (fun p =>
      ((convs.enum).mapM (fun (q : Nat × XlsxConvFn) => q.2 (p.1 + 1) q.1 p.2)).map List.flatten)
  pure rowsOps.flatten

/-- XLSX::write from src/conv/xlsx.rs lines 120-176, the saved workbook
modelled as the list of worksheet operations: for an empty result the
workbook is never saved (.ok none, no file); otherwise freeze panes, the
bolded header cells at row 0 in column order, the data-cell writes, then
the autofilter over the data extent and the autofit. -/
def xlsxWrite (f : SqlColumn → Field) (result : List DbRow) :
    Except RenderErr (Option (List WsOp)) :=
  if result.isEmpty then .ok none
  else do
    let convs ← (resultColumns f result).mapM xlsxConvert
    let dataOps ← xlsxDataOps convs result
    .ok (some (WsOp.freeze 1 0 ::
      ((((resultColumns f result).map Field.name).enum).map
        (fun p => WsOp.writeFmt 0 p.1 (.cStr p.2) .Bold)) ++ dataOps ++
      [WsOp.autofilter 0 0 (result.length - 1) ((resultColumns f result).length - 1),
       WsOp.autofit]))

/-- A concrete environment value for the local-zone default datetime: the
Unix epoch at UTC offset zero. -/
def epochTz : TzDateTimeV := ⟨⟨⟨1970, 1, 1⟩, ⟨0, 0, 0⟩⟩, 0⟩

/-- Concatenation of a list of strings (the shape the writers' outputs are
compared against). -/
def strConcat : List String → String
  | [] => ""
  | s :: rest => s ++ strConcat rest

theorem exc_bind_ok {α β ε : Type} (a : α) (g : α → Except ε β) :
    (Except.ok a >>= g) = g a := rfl

theorem exc_bind_err {α β ε : Type} (e : ε) (g : α → Except ε β) :
    ((Except.error e : Except ε α) >>= g) = Except.error e := rfl

theorem exc_map_ok {α β ε : Type} (a : α) (g : α → β) :
    (Except.ok a : Except ε α).map g = .ok (g a) := rfl

theorem exc_map_err {α β ε : Type} (e : ε) (g : α → β) :
    (Except.error e : Except ε α).map g = .error e := rfl

theorem exc_pure {α ε : Type} (a : α) : (pure a : Except ε α) = .ok a := rfl

theorem mapM_ok_length {α β ε : Type} {k : α → Except ε β} :
    ∀ {l : List α} {l2 : List β}, l.mapM k = .ok l2 → l2.length = l.length := by
  intro l
  induction l with
  | nil =>
    intro l2 h
    rw [List.mapM_nil, exc_pure] at h
    cases h
    rfl
  | cons a t ih =>
    intro l2 h
    rw [List.mapM_cons] at h
    cases hk : k a with
    | error e => rw [hk, exc_bind_err] at h; cases h
    | ok b =>
      rw [hk, exc_bind_ok] at h
      cases ht : t.mapM k with
      | error e => rw [ht, exc_bind_err] at h; cases h
      | ok bs =>
        rw [ht, exc_bind_ok, exc_pure] at h
        cases h
        simp [ih ht]

theorem mapM_ok_mem {α β ε : Type} {k : α → Except ε β} :
    ∀ {l : List α} {l2 : List β}, l.mapM k = .ok l2 →
    ∀ y ∈ l2, ∃ x ∈ l, k x = .ok y := by
  intro l
  induction l with
  | nil =>
    intro l2 h
    rw [List.mapM_nil, exc_pure] at h
    cases h
    intro y hy
    cases hy
  | cons a t ih =>
    intro l2 h
    rw [List.mapM_cons] at h
    cases hk : k a with
    | error e => rw [hk, exc_bind_err] at h; cases h
    | ok b =>
      rw [hk, exc_bind_ok] at h
      cases ht : t.mapM k with
      | error e => rw [ht, exc_bind_err] at h; cases h
      | ok bs =>
        rw [ht, exc_bind_ok, exc_pure] at h
        cases h
        intro y hy
        rcases List.mem_cons.mp hy with hy | hy
        · exact ⟨a, List.mem_cons_self a t, by rw [hk, hy]⟩
        · obtain ⟨x, hx, hkx⟩ := ih ht y hy
          exact ⟨x, List.mem_cons_of_mem a hx, hkx⟩

theorem mapM_pairs_fst {α β ε : Type} (g : α → Except ε β) (h : α → String) :
    ∀ {l : List α} {kvs : List (String × β)},
    l.mapM (fun x => (g x).map (fun v => (h x, v))) = .ok kvs →
    kvs.map Prod.fst = l.map h := by
  intro l
  induction l with
  | nil =>
    intro kvs hm
    rw [List.mapM_nil, exc_pure] at hm
    cases hm
    rfl
  | cons a t ih =>
    intro kvs hm
    rw [List.mapM_cons] at hm
    cases hg : g a with
    | error e => rw [hg, exc_map_err, exc_bind_err] at hm; cases hm
    | ok b =>
      rw [hg, exc_map_ok, exc_bind_ok] at hm
      cases ht : t.mapM (fun x => (g x).map (fun v => (h x, v))) with
      | error e => rw [ht, exc_bind_err] at hm; cases hm
      | ok bs =>
        rw [ht, exc_bind_ok, exc_pure] at hm
        cases hm
        simp [ih ht]

theorem updateLens_length : ∀ (acc : List Nat) (rw : List String),
    (updateLens acc rw).length = acc.length
  | [], _ => by simp [updateLens]
  | _ :: _, [] => by simp [updateLens]
  | l :: acc, s :: rw => by
      simp only [updateLens, List.length_cons, updateLens_length acc rw]

theorem updateLens_getD : ∀ (acc : List Nat) (rw : List String) (j : Nat),
    j < acc.length → j < rw.length →
    (updateLens acc rw).getD j 0 = max ((rw.getD j "").length) (acc.getD j 0)
  | l :: acc, s :: rw, 0, _, _ => by simp [updateLens]
  | l :: acc, s :: rw, j + 1, h1, h2 => by
      simp only [updateLens, List.getD_cons_succ]
      exact updateLens_getD acc rw j (by simpa using h1) (by simpa using h2)
  | [], _, j, h1, _ => by simp at h1
  | _ :: _, [], j, _, h2 => by simp at h2

theorem foldl_updateLens_getD (body : List (List String)) :
    ∀ (acc : List Nat) (j : Nat), (∀ rw ∈ body, rw.length = acc.length) → j < acc.length →
    (body.foldl updateLens acc).getD j 0 =
      (body.map (fun rw => (rw.getD j "").length)).foldl max (acc.getD j 0) := by
  induction body with
  | nil => intro acc j _ _; rfl
  | cons rw t ih =>
    intro acc j hlen hj
    have hrw : rw.length = acc.length := hlen rw (List.mem_cons_self rw t)
    have h1 : (updateLens acc rw).length = acc.length := updateLens_length acc rw
    have step := updateLens_getD acc rw j hj (by omega)
    simp only [List.foldl_cons, List.map_cons]
    rw [ih (updateLens acc rw) j (fun r hr => by rw [h1]; exact hlen r (List.mem_cons_of_mem rw hr))
      (by omega), step, Nat.max_comm]

theorem foldl_max_init_le : ∀ (l : List Nat) (a : Nat), a ≤ l.foldl max a := by
  intro l
  induction l with
  | nil => intro a; exact Nat.le_refl a
  | cons x t ih => intro a; exact le_trans (Nat.le_max_left a x) (ih (max a x))

theorem foldl_max_mem_le : ∀ (l : List Nat) (a x : Nat), x ∈ l → x ≤ l.foldl max a := by
  intro l
  induction l with
  | nil => intro a x hx; cases hx
  | cons y t ih =>
    intro a x hx
    rcases List.mem_cons.mp hx with hx | hx
    · subst hx
      exact le_trans (Nat.le_max_right a x) (foldl_max_init_le t (max a x))
    · exact ih (max a y) x hx

theorem length_mk (l : List Char) : (String.mk l).length = l.length := rfl

theorem dashRepeat_length (n : Nat) : (dashRepeat n).length = n := by
  simp [dashRepeat, length_mk]

theorem padCell_length (s : String) (n : Nat) (h : s.length ≤ n) :
    (padCell s n).length = n := by
  have h2 : (String.mk (List.replicate (n - s.length) ' ')).length = n - s.length := by
    simp [length_mk]
  rw [padCell, String.length_append, h2]
  omega

theorem getD_map_length (l : List String) (j : Nat) (h : j < l.length) :
    (l.map String.length).getD j 0 = (l.getD j "").length := by
  simp only [List.getD_eq_getElem?_getD, List.getElem?_map]
  rw [List.getElem?_eq_getElem h]
  simp

theorem mapInsert_not_mem (m : List (String × JValue)) (k : String) (v : JValue)
    (h : k ∉ m.map Prod.fst) : mapInsert m k v = m ++ [(k, v)] := by
  have : m.any (fun p => p.1 = k) = false := by
    rw [List.any_eq_false]
    intro p hp
    simp only [decide_eq_true_eq]
    intro hpk
    exact h (hpk ▸ List.mem_map_of_mem Prod.fst hp)
  unfold mapInsert
  rw [this]
  exact if_neg Bool.false_ne_true

theorem foldl_mapInsert_append : ∀ (l acc : List (String × JValue)),
    (acc.map Prod.fst ++ l.map Prod.fst).Nodup →
    l.foldl (fun m p => mapInsert m p.1 p.2) acc = acc ++ l := by
  intro l
  induction l with
  | nil => intro acc _; simp
  | cons p t ih =>
    intro acc h
    have hni : p.1 ∉ acc.map Prod.fst := by
      rw [List.nodup_append] at h
      intro hmem
      exact h.2.2 hmem (by simp)
    have hstep : mapInsert acc p.1 p.2 = acc ++ [p] := mapInsert_not_mem acc p.1 p.2 hni
    have hnodup2 : ((acc ++ [p]).map Prod.fst ++ t.map Prod.fst).Nodup := by
      rw [List.map_append, List.append_assoc]
      simpa using h
    simp only [List.foldl_cons, hstep, ih (acc ++ [p]) hnodup2]
    simp

theorem mapFromIter_nodup (l : List (String × JValue)) (h : (l.map Prod.fst).Nodup) :
    mapFromIter l = l := by
  have := foldl_mapInsert_append l [] (by simpa using h)
  simpa [mapFromIter] using this

theorem mapInsert_keys_nodup (m : List (String × JValue)) (k : String) (v : JValue)
    (h : (m.map Prod.fst).Nodup) : ((mapInsert m k v).map Prod.fst).Nodup := by
  unfold mapInsert
  cases hc : m.any (fun p => p.1 = k) with
  | true =>
    rw [if_pos (rfl : (true : Bool) = true)]
    have hkeys : (m.map (fun p => if p.1 = k then (k, v) else p)).map Prod.fst
        = m.map Prod.fst := by
      rw [List.map_map]
      refine List.map_congr_left ?_
      intro p _
      by_cases hp : p.1 = k
      · simp [hp]
      · simp [hp]
    rw [hkeys]
    exact h
  | false =>
    rw [if_neg Bool.false_ne_true]
    rw [List.map_append, List.nodup_append]
    refine ⟨h, List.nodup_singleton _, ?_⟩
    intro a ha hb
    simp only [List.map_cons, List.map_nil, List.mem_singleton] at hb
    subst hb
    rw [List.any_eq_false] at hc
    obtain ⟨p, hp, hpk⟩ := List.mem_map.mp ha
    exact absurd (by simpa using hpk) (by simpa using hc p hp)

theorem mapFromIter_keys_nodup (l : List (String × JValue)) :
    ((mapFromIter l).map Prod.fst).Nodup := by
  suffices hgen : ∀ (l2 acc : List (String × JValue)), (acc.map Prod.fst).Nodup →
      ((l2.foldl (fun m p => mapInsert m p.1 p.2) acc).map Prod.fst).Nodup by
    exact hgen l [] (by simp)
  intro l2
  induction l2 with
  | nil => intro acc h; exact h
  | cons p t ih =>
    intro acc h
    exact ih (mapInsert acc p.1 p.2) (mapInsert_keys_nodup acc p.1 p.2 h)

theorem jsonRowKVs_keys (columns : List Field) (convs : List JsonConvFn) (rw : DbRow)
    (kvs : List (String × JValue)) (hlen : convs.length = columns.length)
    (h : jsonRowKVs columns convs rw = .ok kvs) :
    kvs.map Prod.fst = columns.map Field.name := by
  unfold jsonRowKVs at h
  rw [mapM_pairs_fst (fun (p : Nat × (Field × JsonConvFn)) => p.2.2 p.1 rw)
    (fun (p : Nat × (Field × JsonConvFn)) => p.2.1.name) h]
  have h2 : ((columns.zip convs).enum).map (fun p => p.2.1.name)
      = ((columns.zip convs).enum.map Prod.snd).map (fun q => q.1.name) := by
    rw [List.map_map]; rfl
  rw [h2, List.enum_map_snd]
  have h3 : (columns.zip convs).map (fun q => q.1.name)
      = ((columns.zip convs).map Prod.fst).map Field.name := by
    rw [List.map_map]; rfl
  rw [h3, List.map_fst_zip columns convs (by omega)]

theorem foldlM_render (k : DbRow → Except RenderErr (List (String × JValue))) :
    ∀ (rows : List DbRow) (acc : String),
    (rows.foldlM (fun acc rw => (k rw).map (fun kvs =>
        acc ++ serializeObj (mapFromIter kvs) ++ "," ++ "\n")) acc
        : Except RenderErr String) =
      (rows.mapM k).map (fun ls => acc ++ strConcat (ls.map (fun kvs =>
        serializeObj (mapFromIter kvs) ++ "," ++ "\n"))) := by
  intro rows
  induction rows with
  | nil =>
    intro acc
    show (pure acc : Except RenderErr String) = _
    rw [List.mapM_nil, exc_pure, exc_pure, exc_map_ok]
    simp [strConcat, String.append_empty]
  | cons r t ih =>
    intro acc
    have hfold : (r :: t).foldlM (fun a rw => (k rw).map (fun kvs =>
          a ++ serializeObj (mapFromIter kvs) ++ "," ++ "\n")) acc
        = ((k r).map (fun kvs => acc ++ serializeObj (mapFromIter kvs) ++ "," ++ "\n")) >>=
          (fun a2 => t.foldlM (fun a rw => (k rw).map (fun kvs =>
            a ++ serializeObj (mapFromIter kvs) ++ "," ++ "\n")) a2) := rfl
    rw [List.mapM_cons, hfold]
    cases hk : k r with
    | error e => simp only [hk, exc_map_err, exc_bind_err]
    | ok kvs =>
      rw [exc_map_ok, exc_bind_ok, ih]
      cases ht : t.mapM k with
      | error e => simp only [ht, exc_map_err, exc_bind_err, exc_bind_ok]
      | ok ls =>
        simp only [ht, exc_map_ok, exc_bind_ok, exc_pure, List.map_cons]
        simp [strConcat, String.append_assoc]

theorem tz_display_ne_empty (tz : TzDateTimeV) : tz.toDisplay ≠ "" := by
  intro h
  have h1 : tz.toDisplay.length = 0 := by rw [h]; rfl
  rw [TzDateTimeV.toDisplay, String.length_append, String.length_append] at h1
  have h2 : (" " : String).length = 1 := rfl
  omega

/-- C1: for every column whose reported type name lowercases to "timestamp",
the Postgres impl classifies it as the timezone-naive DATETIME, the MySQL
impl as the timezone-aware DATETIMETZ, and the two classifications differ. -/
theorem c1_timestamp_backend_dispatch (name : String)
    (h : toLowercase name = "timestamp") :
    classify Backend.postgres name = FieldKind.DATETIME ∧
    classify Backend.mysql name = FieldKind.DATETIMETZ ∧
    classify Backend.postgres name ≠ classify Backend.mysql name := by
  simp [classify, classifyPg, classifyMySql, h]

/-- Witness for C1 at the concrete reported name "TimeStamp". -/
theorem c1_witness :
    toLowercase "TimeStamp" = "timestamp" ∧
    (classify Backend.postgres "TimeStamp" = FieldKind.DATETIME ∧
     classify Backend.mysql "TimeStamp" = FieldKind.DATETIMETZ ∧
     classify Backend.postgres "TimeStamp" ≠ classify Backend.mysql "TimeStamp") :=
  ⟨by decide, c1_timestamp_backend_dispatch "TimeStamp" (by decide)⟩

/-- C10: classification is invariant under letter case of the reported type
name: both From impls lowercase the name before consulting the "timestamp"
override and the shared table, so names with equal lowercasings classify
identically under either backend. -/
theorem c10_case_invariance (b : Backend) (n1 n2 : String)
    (h : toLowercase n1 = toLowercase n2) :
    classify b n1 = classify b n2 := by
  cases b <;> simp [classify, classifyPg, classifyMySql, h]

/-- Witness for C10: "VarChar" and "varchar" (names differing only in ASCII
case) classify identically under Postgres. -/
theorem c10_witness :
    toLowercase "VarChar" = toLowercase "varchar" ∧
    classify Backend.postgres "VarChar" = classify Backend.postgres "varchar" :=
  ⟨by decide, c10_case_invariance Backend.postgres "VarChar" "varchar" (by decide)⟩

/-- C2 counterexample: a null DATE cell is not omitted from the text-table
output; the renderer built by gfm_write_date (unwrap_or_default then
to_string) produces the epoch placeholder string "1970-01-01", which is
not the empty cell the claim requires. -/
theorem c2_counterexample :
    gfmRenderCell ⟨⟨⟨1970, 1, 1⟩, ⟨0, 0, 0⟩⟩, 0⟩ ⟨"d", FieldKind.DATE⟩ 0
      ⟨[⟨"d", "date"⟩], [RawValue.vDate none]⟩ = .ok "1970-01-01" ∧
    ("1970-01-01" : String) ≠ "" :=
  ⟨rfl, by decide⟩

/-- C2 (amended): for every null temporal cell the structured-document
renderer yields JSON null and the spreadsheet renderer omits the cell
(performs no write), for all four temporal kinds; the text-table renderer
however does not omit the cell: it renders the default value's string (the
epoch date, midnight, the epoch instant, or the local-zone epoch), a
non-empty placeholder. -/
theorem c2_null_temporal_cells (ld : TzDateTimeV) (nm : String) (rw : DbRow)
    (c1 c2 c3 c4 : Nat)
    (h1 : rw.vals[c1]? = some (RawValue.vDate none))
    (h2 : rw.vals[c2]? = some (RawValue.vTime none))
    (h3 : rw.vals[c3]? = some (RawValue.vDateTime none))
    (h4 : rw.vals[c4]? = some (RawValue.vDateTimeTz none)) :
    (jsonRenderCell ⟨nm, FieldKind.DATE⟩ c1 rw = .ok JValue.null ∧
     jsonRenderCell ⟨nm, FieldKind.TIME⟩ c2 rw = .ok JValue.null ∧
     jsonRenderCell ⟨nm, FieldKind.DATETIME⟩ c3 rw = .ok JValue.null ∧
     jsonRenderCell ⟨nm, FieldKind.DATETIMETZ⟩ c4 rw = .ok JValue.null) ∧
    (∀ r, xlsxRenderCell ⟨nm, FieldKind.DATE⟩ r c1 rw = .ok [] ∧
          xlsxRenderCell ⟨nm, FieldKind.TIME⟩ r c2 rw = .ok [] ∧
          xlsxRenderCell ⟨nm, FieldKind.DATETIME⟩ r c3 rw = .ok [] ∧
          xlsxRenderCell ⟨nm, FieldKind.DATETIMETZ⟩ r c4 rw = .ok []) ∧
    (gfmRenderCell ld ⟨nm, FieldKind.DATE⟩ c1 rw = .ok "1970-01-01" ∧
     gfmRenderCell ld ⟨nm, FieldKind.TIME⟩ c2 rw = .ok "00:00:00" ∧
     gfmRenderCell ld ⟨nm, FieldKind.DATETIME⟩ c3 rw = .ok "1970-01-01 00:00:00" ∧
     gfmRenderCell ld ⟨nm, FieldKind.DATETIMETZ⟩ c4 rw = .ok ld.toDisplay ∧
     ld.toDisplay ≠ "") := by
  refine ⟨⟨?_, ?_, ?_, ?_⟩, fun r => ⟨?_, ?_, ?_, ?_⟩,
    ?_, ?_, ?_, ?_, tz_display_ne_empty ld⟩ <;>
    simp [jsonRenderCell, xlsxRenderCell, gfmRenderCell, jsonConvert, xlsxConvert,
      gfmConvert, getOptDate, getOptTime, getOptDateTime, getOptTz,
      h1, h2, h3, h4, exc_bind_ok, exc_map_ok] <;> rfl

/-- Witness for C2 (amended) at a concrete row holding nulls of the four
temporal kinds, with the local-zone default instantiated at UTC epoch. -/
theorem c2_witness :
    ((⟨[], [RawValue.vDate none, RawValue.vTime none, RawValue.vDateTime none,
       RawValue.vDateTimeTz none]⟩ : DbRow).vals[0]? = some (RawValue.vDate none)) ∧
    ((⟨[], [RawValue.vDate none, RawValue.vTime none, RawValue.vDateTime none,
       RawValue.vDateTimeTz none]⟩ : DbRow).vals[1]? = some (RawValue.vTime none)) ∧
    ((⟨[], [RawValue.vDate none, RawValue.vTime none, RawValue.vDateTime none,
       RawValue.vDateTimeTz none]⟩ : DbRow).vals[2]? = some (RawValue.vDateTime none)) ∧
    ((⟨[], [RawValue.vDate none, RawValue.vTime none, RawValue.vDateTime none,
       RawValue.vDateTimeTz none]⟩ : DbRow).vals[3]? = some (RawValue.vDateTimeTz none)) ∧
    jsonRenderCell ⟨"t", FieldKind.DATE⟩ 0
      ⟨[], [RawValue.vDate none, RawValue.vTime none, RawValue.vDateTime none,
       RawValue.vDateTimeTz none]⟩ = .ok JValue.null :=
  ⟨rfl, rfl, rfl, rfl,
    (c2_null_temporal_cells ⟨⟨⟨1970, 1, 1⟩, ⟨0, 0, 0⟩⟩, 0⟩ "t"
      ⟨[], [RawValue.vDate none, RawValue.vTime none, RawValue.vDateTime none,
       RawValue.vDateTimeTz none]⟩ 0 1 2 3 rfl rfl rfl rfl).1.1⟩

/-- Classification outside the shared table: get_common_type falls through
to UNKNOWN carrying its input name. -/
theorem get_common_type_unknown (name : String) (h : name ∉ knownCommonTypeNames) :
    get_common_type name = FieldKind.UNKNOWN name := by
  simp only [knownCommonTypeNames, List.mem_cons, List.not_mem_nil, or_false, not_or] at h
  obtain ⟨e1, e2, e3, e4, e5, e6, e7, e8, e9, e10, e11, e12, e13, e14, e15, e16, e17,
    e18, e19, e20, e21, e22, e23, e24, e25, e26, e27, e28, e29, e30, e31, e32, e33,
    e34, e35⟩ := h
  simp [get_common_type, e1, e2, e3, e4, e5, e6, e7, e8, e9, e10, e11, e12, e13, e14,
    e15, e16, e17, e18, e19, e20, e21, e22, e23, e24, e25, e26, e27, e28, e29, e30,
    e31, e32, e33, e34, e35]

/-- C3 (amended): every type name outside the shared table classifies to
UNKNOWN carrying that name — a valid classification, not an error — but
selecting a renderer for an UNKNOWN column in any of the three formats is
a todo-panic: no diagnostic is reported and no no-op placeholder is bound;
the panic aborts the whole export. -/
theorem c3_unknown_classification (name : String) (h : name ∉ knownCommonTypeNames)
    (ld : TzDateTimeV) (nm : String) :
    get_common_type name = FieldKind.UNKNOWN name ∧
    gfmConvert ld ⟨nm, FieldKind.UNKNOWN name⟩ = .error .panicTodo ∧
    jsonConvert ⟨nm, FieldKind.UNKNOWN name⟩ = .error .panicTodo ∧
    xlsxConvert ⟨nm, FieldKind.UNKNOWN name⟩ = .error .panicTodo :=
  ⟨get_common_type_unknown name h, rfl, rfl, rfl⟩

/-- C3 counterexample: with one well-known column and one column of the
unrecognised type "interval", no writer completes the export of the known
column; renderer selection panics (todo) and every writer aborts with no
output, contradicting the claimed per-column diagnostic, no-op placeholder
and completed export. -/
theorem c3_counterexample :
    gfmWrite fieldFromPg ⟨⟨⟨1970, 1, 1⟩, ⟨0, 0, 0⟩⟩, 0⟩
      [⟨[⟨"a", "int4"⟩, ⟨"b", "interval"⟩], [RawValue.vInt32 1, RawValue.vStr "x"]⟩]
      = .error .panicTodo ∧
    jsonWrite fieldFromPg
      [⟨[⟨"a", "int4"⟩, ⟨"b", "interval"⟩], [RawValue.vInt32 1, RawValue.vStr "x"]⟩]
      = .error .panicTodo ∧
    xlsxWrite fieldFromPg
      [⟨[⟨"a", "int4"⟩, ⟨"b", "interval"⟩], [RawValue.vInt32 1, RawValue.vStr "x"]⟩]
      = .error .panicTodo :=
  ⟨rfl, rfl, rfl⟩

/-- Witness for C3 (amended) at the concrete unrecognised name "interval". -/
theorem c3_witness :
    "interval" ∉ knownCommonTypeNames ∧
    (get_common_type "interval" = FieldKind.UNKNOWN "interval" ∧
     gfmConvert ⟨⟨⟨1970, 1, 1⟩, ⟨0, 0, 0⟩⟩, 0⟩ ⟨"b", FieldKind.UNKNOWN "interval"⟩
       = .error .panicTodo ∧
     jsonConvert ⟨"b", FieldKind.UNKNOWN "interval"⟩ = .error .panicTodo ∧
     xlsxConvert ⟨"b", FieldKind.UNKNOWN "interval"⟩ = .error .panicTodo) :=
  ⟨by decide,
    c3_unknown_classification "interval" (by decide) ⟨⟨⟨1970, 1, 1⟩, ⟨0, 0, 0⟩⟩, 0⟩ "b"⟩

/-- C4: the unsigned spellings classify to the unsigned kinds (not to
UNKNOWN — the classifications are distinct), and selecting a renderer for
any unsigned kind in any of the three formats is the fatal todo-panic of
an unimplemented feature. -/
theorem c4_unsigned_unimplemented (ld : TzDateTimeV) (nm : String) :
    (get_common_type "tinyint unsigned" = FieldKind.UINT8 ∧
     get_common_type "smallint unsigned" = FieldKind.UINT16 ∧
     get_common_type "int unsigned" = FieldKind.UINT32 ∧
     get_common_type "mediumint unsigned" = FieldKind.UINT32 ∧
     get_common_type "bigint unsigned" = FieldKind.UINT64) ∧
    (gfmConvert ld ⟨nm, FieldKind.UINT8⟩ = .error .panicTodo ∧
     gfmConvert ld ⟨nm, FieldKind.UINT16⟩ = .error .panicTodo ∧
     gfmConvert ld ⟨nm, FieldKind.UINT32⟩ = .error .panicTodo ∧
     gfmConvert ld ⟨nm, FieldKind.UINT64⟩ = .error .panicTodo) ∧
    (jsonConvert ⟨nm, FieldKind.UINT8⟩ = .error .panicTodo ∧
     jsonConvert ⟨nm, FieldKind.UINT16⟩ = .error .panicTodo ∧
     jsonConvert ⟨nm, FieldKind.UINT32⟩ = .error .panicTodo ∧
     jsonConvert ⟨nm, FieldKind.UINT64⟩ = .error .panicTodo) ∧
    (xlsxConvert ⟨nm, FieldKind.UINT8⟩ = .error .panicTodo ∧
     xlsxConvert ⟨nm, FieldKind.UINT16⟩ = .error .panicTodo ∧
     xlsxConvert ⟨nm, FieldKind.UINT32⟩ = .error .panicTodo ∧
     xlsxConvert ⟨nm, FieldKind.UINT64⟩ = .error .panicTodo) ∧
    (∀ s, FieldKind.UINT8 ≠ FieldKind.UNKNOWN s ∧ FieldKind.UINT16 ≠ FieldKind.UNKNOWN s ∧
          FieldKind.UINT32 ≠ FieldKind.UNKNOWN s ∧ FieldKind.UINT64 ≠ FieldKind.UNKNOWN s) :=
  ⟨⟨by decide, by decide, by decide, by decide, by decide⟩,
   ⟨rfl, rfl, rfl, rfl⟩, ⟨rfl, rfl, rfl, rfl⟩, ⟨rfl, rfl, rfl, rfl⟩,
   fun s => ⟨by simp, by simp, by simp, by simp⟩⟩

/-- C9: a DECIMAL cell whose value converts to a floating-point number q
renders as the JSON number q and as a spreadsheet number q with the
2-decimal Eur format; a DECIMAL cell whose value has no floating-point
representation panics at the unwrap, and that panic aborts the entire
export of both writers with no output and no recovery. -/
theorem c9_decimal_conversion (dOk dBad : DecimalV) (q : ℚ) (nm : String)
    (r c : Nat) (rw rwB : DbRow)
    (hv : rw.vals[c]? = some (RawValue.vDecimal dOk))
    (hq : dOk.f64Repr = some q)
    (hvB : rwB.vals[c]? = some (RawValue.vDecimal dBad))
    (hbad : dBad.f64Repr = none) :
    jsonRenderCell ⟨nm, FieldKind.DECIMAL⟩ c rw = .ok (JValue.numF q) ∧
    xlsxRenderCell ⟨nm, FieldKind.DECIMAL⟩ r c rw
      = .ok [WsOp.writeFmt r c (CellContent.cFloat q) XF.Eur] ∧
    (xfMap XF.Eur).numFormat = some "#,##0.00" ∧
    jsonRenderCell ⟨nm, FieldKind.DECIMAL⟩ c rwB = .error .panicUnwrapNone ∧
    xlsxRenderCell ⟨nm, FieldKind.DECIMAL⟩ r c rwB = .error .panicUnwrapNone ∧
    jsonWrite fieldFromPg [⟨[⟨"d", "numeric"⟩], [RawValue.vDecimal ⟨0, 0, none⟩]⟩]
      = .error .panicUnwrapNone ∧
    xlsxWrite fieldFromPg [⟨[⟨"d", "numeric"⟩], [RawValue.vDecimal ⟨0, 0, none⟩]⟩]
      = .error .panicUnwrapNone := by
  refine ⟨?_, ?_, rfl, ?_, ?_, rfl, rfl⟩ <;>
    simp [jsonRenderCell, xlsxRenderCell, jsonConvert, xlsxConvert, getDecimal,
      hv, hvB, hq, hbad, exc_bind_ok, exc_map_ok]

/-- Witness for C9 at the concrete decimals 1.5 (representable as 3/2) and
a decimal carrying no floating-point representation. -/
theorem c9_witness :
    ((⟨[], [RawValue.vDecimal ⟨15, 1, some ((3 : ℚ) / 2)⟩]⟩ : DbRow).vals[0]?
      = some (RawValue.vDecimal ⟨15, 1, some ((3 : ℚ) / 2)⟩)) ∧
    ((⟨15, 1, some ((3 : ℚ) / 2)⟩ : DecimalV).f64Repr = some ((3 : ℚ) / 2)) ∧
    ((⟨[], [RawValue.vDecimal ⟨1, 0, none⟩]⟩ : DbRow).vals[0]?
      = some (RawValue.vDecimal ⟨1, 0, none⟩)) ∧
    ((⟨1, 0, none⟩ : DecimalV).f64Repr = none) ∧
    jsonRenderCell ⟨"d", FieldKind.DECIMAL⟩ 0
        ⟨[], [RawValue.vDecimal ⟨15, 1, some ((3 : ℚ) / 2)⟩]⟩
      = .ok (JValue.numF ((3 : ℚ) / 2)) :=
  ⟨rfl, rfl, rfl, rfl,
    (c9_decimal_conversion ⟨15, 1, some ((3 : ℚ) / 2)⟩ ⟨1, 0, none⟩ ((3 : ℚ) / 2) "d" 1 0
      ⟨[], [RawValue.vDecimal ⟨15, 1, some ((3 : ℚ) / 2)⟩]⟩
      ⟨[], [RawValue.vDecimal ⟨1, 0, none⟩]⟩ rfl rfl rfl rfl).1⟩

/-- C5: for every non-empty result set that the text-table writer renders
successfully, the output is header line, separator line, then one line per
row; the width of each column is the fold of max over the rendered body
starting from the header length, which is exactly the maximum string
length over the header name and all rendered cells of that column; the
separator cell for a column is that many dashes; and every cell of that
column, header and data, pads to exactly that width inside the
pipe-delimited line shape of gfmLine. -/
theorem c5_gfm_layout (f : SqlColumn → Field) (ld : TzDateTimeV)
    (result : List DbRow) (lines : List String)
    (hne : result ≠ []) (hok : gfmWrite f ld result = .ok lines) :
    ∃ head body lens,
      head = (resultColumns f result).map Field.name ∧
      gfmBody f ld result = .ok body ∧
      lens = body.foldl updateLens (head.map String.length) ∧
      lines = gfmLine lens head :: gfmLine lens (lens.map dashRepeat) ::
        body.map (gfmLine lens) ∧
      (∀ j, j < head.length →
        lens.getD j 0 =
          (body.map (fun brow => (brow.getD j "").length)).foldl max
            (head.getD j "").length) ∧
      (∀ j, j < head.length → (dashRepeat (lens.getD j 0)).length = lens.getD j 0) ∧
      (∀ brow, brow ∈ head :: body → ∀ j, j < head.length →
        (padCell (brow.getD j "") (lens.getD j 0)).length = lens.getD j 0) := by
  have hne' : result.isEmpty = false := by
    cases result with
    | nil => exact absurd rfl hne
    | cons a t => rfl
  unfold gfmWrite at hok
  rw [hne', if_neg Bool.false_ne_true] at hok
  cases hbody : gfmBody f ld result with
  | error e => exact absurd (hbody ▸ hok) (by simp [exc_bind_err])
  | ok body =>
    simp only [hbody, exc_bind_ok, List.map_cons, Except.ok.injEq] at hok
    refine ⟨(resultColumns f result).map Field.name, body,
      body.foldl updateLens (((resultColumns f result).map Field.name).map String.length),
      rfl, rfl, rfl, hok.symm, ?_, fun j _ => dashRepeat_length _, ?_⟩
    · -- the width of each column is the max over header and cells
      have hrows : ∀ brow ∈ body, brow.length =
          (((resultColumns f result).map Field.name).map String.length).length := by
        unfold gfmBody at hbody
        cases hcv : (resultColumns f result).mapM (gfmConvert ld) with
        | error e => exact absurd (hcv ▸ hbody) (by simp [exc_bind_err])
        | ok convs =>
          simp only [hcv, exc_bind_ok] at hbody
          intro brow hmem
          obtain ⟨rw, _, hrw⟩ := mapM_ok_mem hbody brow hmem
          have h1 : brow.length = convs.enum.length := mapM_ok_length hrw
          have h2 : convs.length = (resultColumns f result).length := mapM_ok_length hcv
          simp [h1, List.enum_length, h2]
      intro j hj
      have hj' : j < (((resultColumns f result).map Field.name).map String.length).length := by
        simpa using hj
      rw [foldl_updateLens_getD body _ j hrows hj',
        getD_map_length _ j (by simpa using hj)]
    · -- every header and body cell pads to exactly the column width
      have hrows : ∀ brow ∈ body, brow.length =
          (((resultColumns f result).map Field.name).map String.length).length := by
        unfold gfmBody at hbody
        cases hcv : (resultColumns f result).mapM (gfmConvert ld) with
        | error e => exact absurd (hcv ▸ hbody) (by simp [exc_bind_err])
        | ok convs =>
          simp only [hcv, exc_bind_ok] at hbody
          intro brow hmem
          obtain ⟨rw, _, hrw⟩ := mapM_ok_mem hbody brow hmem
          have h1 : brow.length = convs.enum.length := mapM_ok_length hrw
          have h2 : convs.length = (resultColumns f result).length := mapM_ok_length hcv
          simp [h1, List.enum_length, h2]
      intro brow hmem j hj
      have hj' : j < (((resultColumns f result).map Field.name).map String.length).length := by
        simpa using hj
      have hmax := foldl_updateLens_getD body _ j hrows hj'
      rcases List.mem_cons.mp hmem with hmem | hmem
      · subst hmem
        refine padCell_length _ _ ?_
        rw [hmax, getD_map_length _ j (by simpa using hj)]
        exact foldl_max_init_le _ _
      · refine padCell_length _ _ ?_
        rw [hmax]
        exact foldl_max_mem_le _ _ _
          (List.mem_map_of_mem (fun brow => (brow.getD j "").length) hmem)

/-- C6 counterexample: with two columns both named "a", the map the
structured-document writer serializes collapses the duplicate key (keeping
the later value), so the emitted object's keys cannot be the column names
in column order. -/
theorem c6_counterexample :
    jsonObjects fieldFromPg
      [⟨[⟨"a", "int4"⟩, ⟨"a", "text"⟩], [RawValue.vInt32 1, RawValue.vStr "x"]⟩]
      = .ok [[("a", JValue.str "x")]] ∧
    ((resultColumns fieldFromPg
      [⟨[⟨"a", "int4"⟩, ⟨"a", "text"⟩], [RawValue.vInt32 1, RawValue.vStr "x"]⟩]).map
        Field.name) = ["a", "a"] ∧
    ∀ kvs : List (String × JValue), kvs.map Prod.fst = ["a", "a"] →
      kvs ≠ [("a", JValue.str "x")] := by
  refine ⟨rfl, rfl, ?_⟩
  intro kvs hkeys heq
  rw [heq] at hkeys
  simp at hkeys

/-- C6 (amended): the structured-document writer emits the opening array
line, then one serialized object per row in source order with a trailing
comma line after every object including the last, then the closing array
line; each object's keys are the column names in column order and its
values the rendered cells, provided the column names are pairwise distinct
(the serde map collapses duplicated names, keeping the last value). -/
theorem c6_json_layout (f : SqlColumn → Field) (result : List DbRow) (s : String)
    (hnodup : ((resultColumns f result).map Field.name).Nodup)
    (hok : jsonWrite f result = .ok s) :
    ∃ rows : List (List (String × JValue)),
      jsonRawRows f result = .ok rows ∧
      (∀ kvs ∈ rows, kvs.map Prod.fst = (resultColumns f result).map Field.name) ∧
      s = "[" ++ "\n" ++
        strConcat (rows.map (fun kvs => serializeObj kvs ++ "," ++ "\n")) ++ "]" ++ "\n" := by
  by_cases hemp : result.isEmpty
  · have hres : result = [] := List.isEmpty_iff.mp hemp
    subst hres
    unfold jsonWrite at hok
    simp only [List.isEmpty_nil, if_true, Except.ok.injEq] at hok
    refine ⟨[], rfl, ?_, ?_⟩
    · intro kvs h
      cases h
    · rw [← hok]
      decide
  · have hemp' : result.isEmpty = false := by
      cases h : result.isEmpty
      · rfl
      · exact absurd h hemp
    unfold jsonWrite at hok
    rw [hemp', if_neg Bool.false_ne_true] at hok
    cases hcv : (resultColumns f result).mapM jsonConvert with
    | error e =>
      simp only [hcv, exc_bind_err] at hok
      exact Except.noConfusion hok
    | ok convs =>
      simp only [hcv, exc_bind_ok] at hok
      rw [foldlM_render (jsonRowKVs (resultColumns f result) convs) result] at hok
      cases hrows : result.mapM (jsonRowKVs (resultColumns f result) convs) with
      | error e =>
        simp only [hrows, exc_map_err, exc_bind_err] at hok
        exact Except.noConfusion hok
      | ok rows =>
        simp only [hrows, exc_map_ok, exc_bind_ok, Except.ok.injEq] at hok
        have hkeys : ∀ kvs ∈ rows,
            kvs.map Prod.fst = (resultColumns f result).map Field.name := by
          intro kvs hmem
          obtain ⟨rw, _, hrw⟩ := mapM_ok_mem hrows kvs hmem
          exact jsonRowKVs_keys _ convs rw kvs (by simpa using mapM_ok_length hcv) hrw
        refine ⟨rows, ?_, hkeys, ?_⟩
        · unfold jsonRawRows
          simp only [hcv, exc_bind_ok]
          exact hrows
        · rw [← hok]
          have hmc : rows.map (fun kvs => serializeObj (mapFromIter kvs) ++ "," ++ "\n")
              = rows.map (fun kvs => serializeObj kvs ++ "," ++ "\n") := by
            refine List.map_congr_left ?_
            intro kvs hmem
            rw [mapFromIter_nodup kvs (by rw [hkeys kvs hmem]; exact hnodup)]
          rw [hmc]

/-- Witness for C6 (amended) for one int4 column "a" and one row holding 7. -/
theorem c6_witness :
    ((resultColumns fieldFromPg [⟨[⟨"a", "int4"⟩], [RawValue.vInt32 7]⟩]).map
      Field.name).Nodup ∧
    jsonWrite fieldFromPg [⟨[⟨"a", "int4"⟩], [RawValue.vInt32 7]⟩]
      = .ok ("[" ++ "\n" ++ "\x7b" ++ "\"a\":7" ++ "\x7d" ++ "," ++ "\n" ++ "]" ++ "\n") ∧
    (∃ rows : List (List (String × JValue)),
      jsonRawRows fieldFromPg [⟨[⟨"a", "int4"⟩], [RawValue.vInt32 7]⟩] = .ok rows ∧
      (∀ kvs ∈ rows, kvs.map Prod.fst =
        (resultColumns fieldFromPg [⟨[⟨"a", "int4"⟩], [RawValue.vInt32 7]⟩]).map
          Field.name) ∧
      ("[" ++ "\n" ++ "\x7b" ++ "\"a\":7" ++ "\x7d" ++ "," ++ "\n" ++ "]" ++ "\n") =
        "[" ++ "\n" ++
        strConcat (rows.map (fun kvs => serializeObj kvs ++ "," ++ "\n")) ++ "]" ++ "\n") :=
  ⟨by decide, by rfl,
    c6_json_layout fieldFromPg [⟨[⟨"a", "int4"⟩], [RawValue.vInt32 7]⟩] _
      (by decide) (by rfl)⟩

/-- Witness for C5 at a concrete two-column, two-row result whose widths
are forced by the data cells (5) and by the header (4). -/
theorem c5_witness :
    (([⟨[⟨"id", "int4"⟩, ⟨"name", "text"⟩], [RawValue.vInt32 7, RawValue.vStr "Ann"]⟩,
       ⟨[⟨"id", "int4"⟩, ⟨"name", "text"⟩], [RawValue.vInt32 12345, RawValue.vStr "Bo"]⟩] :
       List DbRow) ≠ []) ∧
    gfmWrite fieldFromPg epochTz
      [⟨[⟨"id", "int4"⟩, ⟨"name", "text"⟩], [RawValue.vInt32 7, RawValue.vStr "Ann"]⟩,
       ⟨[⟨"id", "int4"⟩, ⟨"name", "text"⟩], [RawValue.vInt32 12345, RawValue.vStr "Bo"]⟩]
      = .ok ["| id    | name |", "| ----- | ---- |", "| 7     | Ann  |", "| 12345 | Bo   |"] ∧
    (∃ head body lens,
      head = (resultColumns fieldFromPg
        [⟨[⟨"id", "int4"⟩, ⟨"name", "text"⟩], [RawValue.vInt32 7, RawValue.vStr "Ann"]⟩,
         ⟨[⟨"id", "int4"⟩, ⟨"name", "text"⟩],
          [RawValue.vInt32 12345, RawValue.vStr "Bo"]⟩]).map Field.name ∧
      gfmBody fieldFromPg epochTz
        [⟨[⟨"id", "int4"⟩, ⟨"name", "text"⟩], [RawValue.vInt32 7, RawValue.vStr "Ann"]⟩,
         ⟨[⟨"id", "int4"⟩, ⟨"name", "text"⟩],
          [RawValue.vInt32 12345, RawValue.vStr "Bo"]⟩] = .ok body ∧
      lens = body.foldl updateLens (head.map String.length) ∧
      ["| id    | name |", "| ----- | ---- |", "| 7     | Ann  |", "| 12345 | Bo   |"] =
        gfmLine lens head :: gfmLine lens (lens.map dashRepeat) ::
          body.map (gfmLine lens) ∧
      (∀ j, j < head.length →
        lens.getD j 0 =
          (body.map (fun brow => (brow.getD j "").length)).foldl max
            (head.getD j "").length) ∧
      (∀ j, j < head.length → (dashRepeat (lens.getD j 0)).length = lens.getD j 0) ∧
      (∀ brow, brow ∈ head :: body → ∀ j, j < head.length →
        (padCell (brow.getD j "") (lens.getD j 0)).length = lens.getD j 0)) :=
  ⟨List.cons_ne_nil _ _, by rfl,
    c5_gfm_layout fieldFromPg epochTz
      [⟨[⟨"id", "int4"⟩, ⟨"name", "text"⟩], [RawValue.vInt32 7, RawValue.vStr "Ann"]⟩,
       ⟨[⟨"id", "int4"⟩, ⟨"name", "text"⟩], [RawValue.vInt32 12345, RawValue.vStr "Bo"]⟩]
      ["| id    | name |", "| ----- | ---- |", "| 7     | Ann  |", "| 12345 | Bo   |"]
      (List.cons_ne_nil _ _) (by rfl)⟩

/-- C7 counterexample: with two columns both named "a", the structured-
document writer's per-row object carries the key "a" once, not once per
column, so it does not emit all N column names. -/
theorem c7_counterexample :
    jsonObjects fieldFromPg
      [⟨[⟨"a", "int4"⟩, ⟨"a", "int4"⟩], [RawValue.vInt32 1, RawValue.vInt32 2]⟩]
      = .ok [[("a", JValue.numI 2)]] ∧
    ((resultColumns fieldFromPg
      [⟨[⟨"a", "int4"⟩, ⟨"a", "int4"⟩], [RawValue.vInt32 1, RawValue.vInt32 2]⟩]).map
        Field.name) = ["a", "a"] ∧
    [("a", JValue.numI 2)].map Prod.fst ≠ ["a", "a"] := by
  refine ⟨rfl, rfl, ?_⟩
  intro h
  simp at h

/-- C7 (amended): for every non-empty result, whatever the column names,
the text-table writer's first output line is built from exactly the
column-name list in order and the spreadsheet writer's operation list
starts with the bolded header writes of exactly the column names in
column order at row 0 — both emit all N names even when duplicated. The
structured-document writer emits each object with exactly the column
names, in column order, as its keys when the names are pairwise distinct;
and in every case each emitted object's keys are duplicate-free, so a
duplicated column name appears only once per object. -/
theorem c7_header_fidelity (f : SqlColumn → Field) (ld : TzDateTimeV)
    (result : List DbRow) (glines : List String)
    (objs : List (List (String × JValue))) (xops : List WsOp)
    (hne : result ≠ [])
    (hg : gfmWrite f ld result = .ok glines)
    (hj : jsonObjects f result = .ok objs)
    (hx : xlsxWrite f result = .ok (some xops)) :
    (∃ lens rest, glines = gfmLine lens ((resultColumns f result).map Field.name) :: rest) ∧
    (∃ dataOps, xops = WsOp.freeze 1 0 ::
      ((((resultColumns f result).map Field.name).enum).map
        (fun p => WsOp.writeFmt 0 p.1 (CellContent.cStr p.2) XF.Bold)) ++ dataOps ++
      [WsOp.autofilter 0 0 (result.length - 1) ((resultColumns f result).length - 1),
       WsOp.autofit]) ∧
    (((resultColumns f result).map Field.name).Nodup →
      ∀ o ∈ objs, o.map Prod.fst = (resultColumns f result).map Field.name) ∧
    (∀ o ∈ objs, (o.map Prod.fst).Nodup) := by
  have hne' : result.isEmpty = false := by
    cases result with
    | nil => exact absurd rfl hne
    | cons a t => rfl
  have hjson : ∀ o ∈ objs, ∃ kvs, o = mapFromIter kvs ∧
      kvs.map Prod.fst = (resultColumns f result).map Field.name := by
    unfold jsonObjects at hj
    cases hcv : (resultColumns f result).mapM jsonConvert with
    | error e =>
      simp only [hcv, exc_bind_err] at hj
      exact Except.noConfusion hj
    | ok convs =>
      simp only [hcv, exc_bind_ok] at hj
      intro o ho
      obtain ⟨rw, _, hrw⟩ := mapM_ok_mem hj o ho
      cases hkv : jsonRowKVs (resultColumns f result) convs rw with
      | error e =>
        rw [hkv, exc_map_err] at hrw
        exact Except.noConfusion hrw
      | ok kvs =>
        rw [hkv, exc_map_ok] at hrw
        injection hrw with h2
        exact ⟨kvs, h2.symm,
          jsonRowKVs_keys _ convs rw kvs (by simpa using mapM_ok_length hcv) hkv⟩
  refine ⟨?_, ?_, ?_, ?_⟩
  · unfold gfmWrite at hg
    rw [hne', if_neg Bool.false_ne_true] at hg
    cases hbody : gfmBody f ld result with
    | error e =>
      simp only [hbody, exc_bind_err] at hg
      exact Except.noConfusion hg
    | ok body =>
      simp only [hbody, exc_bind_ok, List.map_cons, Except.ok.injEq] at hg
      exact ⟨_, _, hg.symm⟩
  · unfold xlsxWrite at hx
    rw [hne', if_neg Bool.false_ne_true] at hx
    cases hcv : (resultColumns f result).mapM xlsxConvert with
    | error e =>
      simp only [hcv, exc_bind_err] at hx
      exact Except.noConfusion hx
    | ok convs =>
      simp only [hcv, exc_bind_ok] at hx
      cases hdo : xlsxDataOps convs result with
      | error e =>
        simp only [hdo, exc_bind_err] at hx
        exact Except.noConfusion hx
      | ok dataOps =>
        simp only [hdo, exc_bind_ok, Except.ok.injEq, Option.some.injEq] at hx
        exact ⟨dataOps, hx.symm⟩
  · intro hnodup o ho
    obtain ⟨kvs, ho2, hkeys⟩ := hjson o ho
    rw [ho2, mapFromIter_nodup kvs (by rw [hkeys]; exact hnodup), hkeys]
  · intro o ho
    obtain ⟨kvs, ho2, _⟩ := hjson o ho
    rw [ho2]
    exact mapFromIter_keys_nodup kvs

/-- Witness for C7 (amended) at a concrete one-row result with the two
distinct column names "id" and "name". -/
theorem c7_witness :
    (([⟨[⟨"id", "int4"⟩, ⟨"name", "text"⟩], [RawValue.vInt32 7, RawValue.vStr "Ann"]⟩] :
       List DbRow) ≠ []) ∧
    gfmWrite fieldFromPg epochTz
      [⟨[⟨"id", "int4"⟩, ⟨"name", "text"⟩], [RawValue.vInt32 7, RawValue.vStr "Ann"]⟩]
      = .ok ["| id | name |", "| -- | ---- |", "| 7  | Ann  |"] ∧
    jsonObjects fieldFromPg
      [⟨[⟨"id", "int4"⟩, ⟨"name", "text"⟩], [RawValue.vInt32 7, RawValue.vStr "Ann"]⟩]
      = .ok [[("id", JValue.numI 7), ("name", JValue.str "Ann")]] ∧
    xlsxWrite fieldFromPg
      [⟨[⟨"id", "int4"⟩, ⟨"name", "text"⟩], [RawValue.vInt32 7, RawValue.vStr "Ann"]⟩]
      = .ok (some [WsOp.freeze 1 0,
          WsOp.writeFmt 0 0 (CellContent.cStr "id") XF.Bold,
          WsOp.writeFmt 0 1 (CellContent.cStr "name") XF.Bold,
          WsOp.writeFmt 1 0 (CellContent.cInt 7) XF.Int,
          WsOp.write 1 1 (CellContent.cStr "Ann"),
          WsOp.autofilter 0 0 0 1, WsOp.autofit]) ∧
    ((∃ lens rest, ["| id | name |", "| -- | ---- |", "| 7  | Ann  |"] =
        gfmLine lens ((resultColumns fieldFromPg
          [⟨[⟨"id", "int4"⟩, ⟨"name", "text"⟩],
            [RawValue.vInt32 7, RawValue.vStr "Ann"]⟩]).map Field.name) :: rest) ∧
     (∃ dataOps, [WsOp.freeze 1 0,
          WsOp.writeFmt 0 0 (CellContent.cStr "id") XF.Bold,
          WsOp.writeFmt 0 1 (CellContent.cStr "name") XF.Bold,
          WsOp.writeFmt 1 0 (CellContent.cInt 7) XF.Int,
          WsOp.write 1 1 (CellContent.cStr "Ann"),
          WsOp.autofilter 0 0 0 1, WsOp.autofit] = WsOp.freeze 1 0 ::
        ((((resultColumns fieldFromPg
          [⟨[⟨"id", "int4"⟩, ⟨"name", "text"⟩],
            [RawValue.vInt32 7, RawValue.vStr "Ann"]⟩]).map Field.name).enum).map
          (fun p => WsOp.writeFmt 0 p.1 (CellContent.cStr p.2) XF.Bold)) ++ dataOps ++
        [WsOp.autofilter 0 0
          (([⟨[⟨"id", "int4"⟩, ⟨"name", "text"⟩],
             [RawValue.vInt32 7, RawValue.vStr "Ann"]⟩] : List DbRow).length - 1)
          ((resultColumns fieldFromPg
            [⟨[⟨"id", "int4"⟩, ⟨"name", "text"⟩],
              [RawValue.vInt32 7, RawValue.vStr "Ann"]⟩]).length - 1),
         WsOp.autofit]) ∧
     (((resultColumns fieldFromPg
          [⟨[⟨"id", "int4"⟩, ⟨"name", "text"⟩],
            [RawValue.vInt32 7, RawValue.vStr "Ann"]⟩]).map Field.name).Nodup →
        ∀ o ∈ [[("id", JValue.numI 7), ("name", JValue.str "Ann")]],
          o.map Prod.fst = (resultColumns fieldFromPg
            [⟨[⟨"id", "int4"⟩, ⟨"name", "text"⟩],
              [RawValue.vInt32 7, RawValue.vStr "Ann"]⟩]).map Field.name) ∧
     (∀ o ∈ [[("id", JValue.numI 7), ("name", JValue.str "Ann")]],
        (o.map Prod.fst).Nodup)) :=
  ⟨List.cons_ne_nil _ _, by rfl, by rfl, by rfl,
    c7_header_fidelity fieldFromPg epochTz
      [⟨[⟨"id", "int4"⟩, ⟨"name", "text"⟩], [RawValue.vInt32 7, RawValue.vStr "Ann"]⟩]
      ["| id | name |", "| -- | ---- |", "| 7  | Ann  |"]
      [[("id", JValue.numI 7), ("name", JValue.str "Ann")]]
      [WsOp.freeze 1 0,
       WsOp.writeFmt 0 0 (CellContent.cStr "id") XF.Bold,
       WsOp.writeFmt 0 1 (CellContent.cStr "name") XF.Bold,
       WsOp.writeFmt 1 0 (CellContent.cInt 7) XF.Int,
       WsOp.write 1 1 (CellContent.cStr "Ann"),
       WsOp.autofilter 0 0 0 1, WsOp.autofit]
      (List.cons_ne_nil _ _) (by rfl) (by rfl) (by rfl)⟩

/-- C8: a zero-row result set produces success in all three writers: the
structured-document writer emits the empty array (its two delimiter
lines), the text-table writer emits no lines, and the spreadsheet writer
never saves the workbook (no file), so no data rows exist in any output
and no error is raised. -/
theorem c8_empty_result (f : SqlColumn → Field) (ld : TzDateTimeV) :
    jsonWrite f [] = .ok ("[" ++ "\n" ++ "]" ++ "\n") ∧
    gfmWrite f ld [] = .ok [] ∧
    xlsxWrite f [] = .ok none :=
  ⟨rfl, rfl, rfl⟩

end Sql2any
